import Mathlib

/-!
Shallow embedding of the prescription-firewall engine
(`firewall_engine.py`, class `PrescriptionFirewall`).

Modelling conventions:
* A pandas DataFrame is a `List` of typed rows; `None` (data not loaded)
  is modelled by `Option`.  Row lookup `df[df[key] == id].iloc[0]` is
  `List.find?` (first matching row).
* A cell that pandas reports as NA (missing column or NaN) is `Option.none`;
  a present string cell is `some s`.
* Python `float` doses are modelled by `Rat` (every dose compared by the
  engine is an exact decimal; NaN doses are out of scope).
* The per-layer `try/except` wrappers never fire in the pure embedding;
  for Layer 3, whose fail-open handler is itself specified behaviour, the
  handler is embedded explicitly as `layer3_catch` over `Except`.
* The `timestamp` field of the result dict is wall-clock output and is not
  modelled; no claim constrains it.
-/

namespace Firewall

/-- A scalar or collection value stored under a key of a layer-result
`details` dict. -/
inductive DVal where
  | s (v : String)
  | num (v : Rat)
  | b (v : Bool)
  | strs (vs : List String)
deriving DecidableEq

/-- The `details` mapping of a layer result (insertion-ordered dict). -/
abbrev Details := List (String × DVal)

/-- One layer's result dict: `passed`, `message`, and an optional `details`
key (the skipped placeholders synthesized by `analyze_prescription` carry
no `details` key at all, hence `Option`). -/
structure LayerResult where
  passed : Bool
  message : String
  details : Option Details
deriving DecidableEq

/-- One row of `medical_prescribers_50.xlsx` as read by the engine. -/
structure Prescriber where
  doctor_id : String
  name : String
  specialty : String
  credentialing_status : String
  dea_number : String
deriving DecidableEq

/-- One row of `medical_patients_100.xlsx` as read by the engine.
`conditions`, `medications`, `liver_status`, `kidney_status` are `none`
when pandas reports the cell as NA. -/
structure Patient where
  patient_id : String
  name : String
  age : Rat
  conditions : Option String
  medications : Option String
  liver_status : Option String
  kidney_status : Option String
deriving DecidableEq

/-- The mutable state of a `PrescriptionFirewall` instance: the two
data frames (`none` when loading failed) and the two process-wide
counters. -/
structure FirewallState where
  prescribers_df : Option (List Prescriber)
  patients_df : Option (List Patient)
  analysis_count : Nat
  approved_count : Nat
deriving DecidableEq

/-- Python `str.lower()` (character-wise; all names the engine compares
are ASCII). -/
def pyLower (s : String) : String := String.mk (s.toList.map Char.toLower)

/-- Python `str.strip()`: drop whitespace from both ends. -/
def pyStrip (s : String) : String :=
  String.mk (((s.toList.dropWhile Char.isWhitespace).reverse.dropWhile
    Char.isWhitespace).reverse)

/-- Helper for `pySplitSemi`: accumulate the current field (reversed). -/
def pySplitSemiAux : List Char → List Char → List String
  | [], acc => [String.mk acc.reverse]
  | c :: cs, acc =>
    if c = ';' then String.mk acc.reverse :: pySplitSemiAux cs []
    else pySplitSemiAux cs (c :: acc)

/-- Python `str.split(';')`: `"" ↦ [""]`, `"a;b" ↦ ["a", "b"]`. -/
def pySplitSemi (s : String) : List String := pySplitSemiAux s.toList []

/-- Python `str.startswith(pre)`. -/
def pyStartsWith (s pre : String) : Bool := pre.toList.isPrefixOf s.toList

/-- Layer 0, `layer0_doctor_authorization`: verify the prescriber exists, is
`Active`, and has a DEA number starting with `A`. -/
def layer0_doctor_authorization (st : FirewallState) (prescriber_id : String) :
    LayerResult :=
  match st.prescribers_df with
  | none => { passed := false, message := "Database not loaded", details := some [] }
  | some df =>
    match df.find? (fun p => p.doctor_id == prescriber_id) with
    | none =>
      { passed := false
        message := "Prescriber " ++ prescriber_id ++ " not found in database"
        details := some [] }
    | some p =>
      if p.credentialing_status != "Active" then
        { passed := false
          message := "Prescriber status: " ++ p.credentialing_status
          details := some [("status", .s p.credentialing_status), ("name", .s p.name)] }
      else if !(pyStartsWith p.dea_number "A") then
        { passed := false, message := "Invalid DEA number format", details := some [] }
      else
        { passed := true
          message := "Prescriber " ++ p.name ++ " authorized"
          details := some [("name", .s p.name), ("specialty", .s p.specialty),
                           ("status", .s p.credentialing_status),
                           ("dea_number", .s p.dea_number)] }

/-- Models `str(cell).split(';') if pd.notna(cell) else []` — the extraction used
by `layer1_patient_validation` for the `conditions`/`medications` cells.
An NA cell yields `[]`; a present cell (even the empty string) is split on
`;` with no further normalization. -/
def pySplitIfPresent (field : Option String) : List String :=
  match field with
  | none => []
  | some s => pySplitSemi s

/-- Layer 1, `layer1_patient_validation`: fail only when the patient store is
unloaded or the id is absent; otherwise pass, carrying the raw clinical
attributes in `details`. -/
def layer1_patient_validation (st : FirewallState) (patient_id : String) :
    LayerResult :=
  match st.patients_df with
  | none => { passed := false, message := "Patient database not loaded", details := some [] }
  | some df =>
    match df.find? (fun p => p.patient_id == patient_id) with
    | none =>
      { passed := false
        message := "Patient " ++ patient_id ++ " not found"
        details := some [] }
    | some p =>
      { passed := true
        message := "Patient " ++ p.name ++ " found"
        details := some [("name", .s p.name), ("age", .num p.age),
                         ("conditions", .strs (pySplitIfPresent p.conditions)),
                         ("medications", .strs (pySplitIfPresent p.medications)),
                         ("liver_status", .s (p.liver_status.getD "normal")),
                         ("kidney_status", .s (p.kidney_status.getD "normal"))] }

/-- The hardcoded illegal-substance list of `layer2_drug_safety`. -/
def illegal_drugs : List String := ["heroin", "fentanyl_street", "meth", "cocaine", "pcp"]

/-- The hardcoded safe-dose-limit table (mg) of `layer2_drug_safety`. -/
def safe_dose_limits : List (String × Rat) :=
  [("oxycodone", 50), ("morphine", 100), ("hydrocodone", 40), ("codeine", 60),
   ("paracetamol", 1000), ("ibuprofen", 800), ("aspirin", 500), ("metformin", 2550),
   ("lisinopril", 40), ("atenolol", 100), ("vitamin_d", 4000), ("atorvastatin", 80),
   ("amlodipine", 10), ("albuterol", 200), ("insulin", 300)]

/-- Layer 2, `layer2_drug_safety`: normalize the drug name (lowercase then strip),
reject illegal substances, reject doses strictly above the table ceiling,
pass everything else. -/
def layer2_drug_safety (drug : String) (dose : Rat) : LayerResult :=
  let drug_lower := pyStrip (pyLower drug)
  let passOk : LayerResult :=
    { passed := true
      message := "Drug \x27" ++ drug ++ "\x27 at " ++ toString dose ++ "mg is safe"
      details := some [("drug", .s drug), ("dose", .num dose), ("status", .s "valid")] }
  if illegal_drugs.contains drug_lower then
    { passed := false
      message := "Drug \x27" ++ drug ++ "\x27 is illegal/controlled substance"
      details := some [] }
  else
    match safe_dose_limits.lookup drug_lower with
    | some max_dose =>
      if dose > max_dose then
        { passed := false
          message := "Dose " ++ toString dose ++ "mg exceeds safe limit of "
                     ++ toString max_dose ++ "mg"
          details := some [("drug", .s drug), ("dose", .num dose),
                           ("max_safe_dose", .num max_dose)] }
      else passOk
    | none => passOk

/-- Models `str(cell).lower().split(';')` with pandas `.get(key, '')` defaulting —
the extraction used by `layer3_contraindication_detection` for the
`conditions`/`medications` cells.  Note the asymmetry with Layer 1: there
is no NA guard here, so an absent cell becomes `""` and splits to `[""]`. -/
def layer3_splitLower (field : Option String) : List String :=
  pySplitSemi (pyLower (field.getD ""))

/-- CPython `repr` of one string, for strings free of quotes, backslashes
and non-printables (the only case the engine ever hits: the substring test
it feeds this to only ever looks for the pattern `ckd`). -/
def pyReprStr (s : String) : String := "\x27" ++ s ++ "\x27"

/-- Joins rendered elements with a comma and space, as inside a CPython
list `repr`. -/
def commaJoin : List String → String
  | [] => ""
  | [x] => x
  | x :: y :: xs => x ++ ", " ++ commaJoin (y :: xs)

/-- CPython `str(...)` of a list of strings, e.g.
`str(['a', 'b']) = "['a', 'b']"` — the rendering the NSAID rule scans for
the substring `ckd`. -/
def pyReprStrList (ls : List String) : String :=
  "[" ++ commaJoin (ls.map pyReprStr) ++ "]"

/-- Python `pat in s` substring test on strings. -/
def pyInStr (pat s : String) : Bool := decide (pat.toList <:+: s.toList)

/-- The opioid list hardcoded in `layer3_contraindication_detection`. -/
def opioid_drugs : List String := ["oxycodone", "morphine", "hydrocodone", "codeine"]

/-- Body of `layer3_contraindication_detection` (the code inside its
`try`).  The Python early returns become one if-else chain; the rule order
is exactly the source order: opioid-liver, opioid-kidney, NSAID-kidney,
aspirin-warfarin, metformin-kidney, default pass. -/
def layer3_body (st : FirewallState) (patient_id drug : String) : LayerResult :=
  match st.patients_df with
  | none =>
    { passed := true
      message := "Cannot check contraindications - patient DB unavailable"
      details := some [] }
  | some df =>
    match df.find? (fun p => p.patient_id == patient_id) with
    | none =>
      { passed := true
        message := "Patient not found for contraindication check"
        details := some [] }
    | some p =>
      let conditions := layer3_splitLower p.conditions
      let medications := layer3_splitLower p.medications
      let liver_status := pyLower (p.liver_status.getD "normal")
      let kidney_status := pyLower (p.kidney_status.getD "normal")
      let drug_lower := pyStrip (pyLower drug)
      if opioid_drugs.contains drug_lower && ["severe", "impaired"].contains liver_status then
        { passed := false
          message := "CONTRAINDICATION: " ++ drug ++ " contraindicated with "
                     ++ liver_status ++ " liver disease"
          details := some [("reason", .s "opioids_liver_disease"),
                           ("severity", .s "CRITICAL")] }
      else if opioid_drugs.contains drug_lower && kidney_status == "severe" then
        { passed := false
          message := "CONTRAINDICATION: " ++ drug
                     ++ " contraindicated with severe kidney disease"
          details := some [("reason", .s "opioids_kidney_disease"),
                           ("severity", .s "CRITICAL")] }
      else if (["aspirin", "ibuprofen"].contains drug_lower)
              && (conditions.contains "kidney_disease"
                  || pyInStr "ckd" (pyReprStrList conditions)) then
        { passed := false
          message := "CONTRAINDICATION: NSAIDs contraindicated with kidney disease"
          details := some [("reason", .s "nsaid_kidney_disease"),
                           ("severity", .s "HIGH")] }
      else if drug_lower == "aspirin" && medications.contains "warfarin" then
        { passed := false
          message := "CONTRAINDICATION: Aspirin-Warfarin interaction (bleeding risk)"
          details := some [("reason", .s "drug_drug_interaction"),
                           ("severity", .s "CRITICAL"),
                           ("interaction", .s "aspirin_warfarin")] }
      else if drug_lower == "metformin" && ["impaired", "severe"].contains kidney_status then
        { passed := false
          message := "CONTRAINDICATION: Metformin contraindicated with kidney impairment"
          details := some [("reason", .s "metformin_kidney_disease"),
                           ("severity", .s "HIGH")] }
      else
        { passed := true
          message := "No contraindications detected"
          details := some [("checked", .b true), ("conditions", .strs conditions),
                           ("status", .s "safe")] }

/-- The `except` handler of Layer 3: an exception text `e` raised while
evaluating the body converts to a PASSING result (fail-open), unlike
layers 0-2 whose handlers fail closed. -/
def layer3_catch (body : Except String LayerResult) : LayerResult :=
  match body with
  | .ok r => r
  | .error e =>
    { passed := true, message := "Warning in Layer 3: " ++ e, details := some [] }

/-- Layer 3, `layer3_contraindication_detection`: the body under the fail-open
handler.  In the pure embedding the body never throws; `dose` is accepted
but unused, as in the source. -/
def layer3_contraindication_detection (st : FirewallState)
    (patient_id drug : String) (dose : Rat) : LayerResult :=
  layer3_catch (Except.ok (layer3_body st patient_id drug))

/-- The verdict dict returned by `analyze_prescription` (its wall-clock
`timestamp` field is not modelled). -/
structure Verdict where
  approved : Bool
  prescriber_id : String
  patient_id : String
  drug : String
  dose : Rat
  layer0 : LayerResult
  layer1 : LayerResult
  layer2 : LayerResult
  layer3 : LayerResult
  safety_score : Nat
  reason : String
deriving DecidableEq

/-- The placeholder synthesized for a layer that was never evaluated
because layer `n` already failed; it carries no `details` key. -/
def skippedResult (n : Nat) : LayerResult :=
  { passed := false
    message := "Skipped - Layer " ++ toString n ++ " failed"
    details := none }

/-- The orchestrator `analyze_prescription`: run layers 0→3 in order, short-circuit on the
first failure, bump `analysis_count` always and `approved_count` only on
full approval.  Returns the post-call state together with the verdict. -/
def analyze_prescription (st : FirewallState)
    (prescriber_id patient_id drug : String) (dose : Rat) :
    FirewallState × Verdict :=
  let st1 : FirewallState := { st with analysis_count := st.analysis_count + 1 }
  let l0 := layer0_doctor_authorization st prescriber_id
  if !l0.passed then
    (st1,
     { approved := false, prescriber_id := prescriber_id, patient_id := patient_id
       drug := drug, dose := dose
       layer0 := l0, layer1 := skippedResult 0, layer2 := skippedResult 0
       layer3 := skippedResult 0
       safety_score := 0, reason := l0.message })
  else
    let l1 := layer1_patient_validation st patient_id
    if !l1.passed then
      (st1,
       { approved := false, prescriber_id := prescriber_id, patient_id := patient_id
         drug := drug, dose := dose
         layer0 := l0, layer1 := l1, layer2 := skippedResult 1
         layer3 := skippedResult 1
         safety_score := 25, reason := l1.message })
    else
      let l2 := layer2_drug_safety drug dose
      if !l2.passed then
        (st1,
         { approved := false, prescriber_id := prescriber_id, patient_id := patient_id
           drug := drug, dose := dose
           layer0 := l0, layer1 := l1, layer2 := l2, layer3 := skippedResult 2
           safety_score := 50, reason := l2.message })
      else
        let l3 := layer3_contraindication_detection st patient_id drug dose
        if !l3.passed then
          (st1,
           { approved := false, prescriber_id := prescriber_id, patient_id := patient_id
             drug := drug, dose := dose
             layer0 := l0, layer1 := l1, layer2 := l2, layer3 := l3
             safety_score := 25, reason := l3.message })
        else
          ({ st1 with approved_count := st1.approved_count + 1 },
           { approved := true, prescriber_id := prescriber_id, patient_id := patient_id
             drug := drug, dose := dose
             layer0 := l0, layer1 := l1, layer2 := l2, layer3 := l3
             safety_score := 100, reason := "✅ APPROVED - All 4 layers passed" })

/-- The dict returned by `get_statistics` (the human-formatted
`approval_rate` percentage string is float formatting and is not
modelled; no claim constrains it). -/
structure Statistics where
  total_prescribers : Nat
  total_patients : Nat
  total_analyses : Nat
  approved_count : Nat
  denied_count : Int
deriving DecidableEq

/-- Statistics, `get_statistics`: table sizes plus the counters;
`denied_count = analysis_count - approved_count` over the integers, as in
Python. -/
def get_statistics (st : FirewallState) : Statistics :=
  { total_prescribers := (st.prescribers_df.getD []).length
    total_patients := (st.patients_df.getD []).length
    total_analyses := st.analysis_count
    approved_count := st.approved_count
    denied_count := (st.analysis_count : Int) - (st.approved_count : Int) }

/-! ## Theorems about the engine -/

/-- C1: for every input, `analyze_prescription` returns a verdict with one
`LayerResult` per layer (the four `layer0`..`layer3` fields of `Verdict`)
and a `safety_score` in `{0, 25, 50, 100}` determined solely by the first
failing layer: 0 when layer 0 fails, 25 when layer 1 is the first failure,
50 when layer 2 is the first failure, 25 when layer 3 is the first
failure, and 100 when all four pass.  (Since skipped placeholders carry
`passed = false`, "first failing layer" is read off the verdict's flags.) -/
theorem C1_score_from_first_failing_layer (st : FirewallState)
    (prescriber_id patient_id drug : String) (dose : Rat) :
    let v := (analyze_prescription st prescriber_id patient_id drug dose).2
    (v.safety_score = 0 ∨ v.safety_score = 25 ∨ v.safety_score = 50 ∨
      v.safety_score = 100) ∧
    v.safety_score =
      (if v.layer0.passed = false then 0
       else if v.layer1.passed = false then 25
       else if v.layer2.passed = false then 50
       else if v.layer3.passed = false then 25
       else 100) := by
  cases h0 : (layer0_doctor_authorization st prescriber_id).passed with
  | false => simp [analyze_prescription, h0, skippedResult]
  | true =>
    cases h1 : (layer1_patient_validation st patient_id).passed with
    | false => simp [analyze_prescription, h0, h1, skippedResult]
    | true =>
      cases h2 : (layer2_drug_safety drug dose).passed with
      | false => simp [analyze_prescription, h0, h1, h2, skippedResult]
      | true =>
        cases h3 : (layer3_contraindication_detection st patient_id drug dose).passed with
        | false => simp [analyze_prescription, h0, h1, h2, h3, skippedResult]
        | true => simp [analyze_prescription, h0, h1, h2, h3]

/-- C2: the verdict is approved exactly when the safety score is 100;
equivalently, `approved` is the conjunction of the four per-layer `passed`
flags, so any failing layer forces `approved = false` and all four passing
forces `approved = true` with score 100. -/
theorem C2_approved_iff_score_100 (st : FirewallState)
    (prescriber_id patient_id drug : String) (dose : Rat) :
    let v := (analyze_prescription st prescriber_id patient_id drug dose).2
    (v.approved = true ↔ v.safety_score = 100) ∧
    v.approved = (v.layer0.passed && v.layer1.passed && v.layer2.passed
      && v.layer3.passed) := by
  cases h0 : (layer0_doctor_authorization st prescriber_id).passed with
  | false => simp [analyze_prescription, h0, skippedResult]
  | true =>
    cases h1 : (layer1_patient_validation st patient_id).passed with
    | false => simp [analyze_prescription, h0, h1, skippedResult]
    | true =>
      cases h2 : (layer2_drug_safety drug dose).passed with
      | false => simp [analyze_prescription, h0, h1, h2, skippedResult]
      | true =>
        cases h3 : (layer3_contraindication_detection st patient_id drug dose).passed with
        | false => simp [analyze_prescription, h0, h1, h2, h3, skippedResult]
        | true => simp [analyze_prescription, h0, h1, h2, h3]

/-- C3: Layer 3 is fail-open.  Whatever the drug and dose: when the
patient store is unavailable it passes with an advisory message; when the
patient id is not found it passes likewise; and the `except` handler
(`layer3_catch`) converts any evaluation error text to a passing result,
so inability to check contraindications never blocks a prescription. -/
theorem C3_layer3_fail_open (st : FirewallState) (df : List Patient)
    (patient_id drug : String) (dose : Rat) (e : String) :
    (st.patients_df = none →
      layer3_contraindication_detection st patient_id drug dose =
        { passed := true
          message := "Cannot check contraindications - patient DB unavailable"
          details := some [] }) ∧
    (st.patients_df = some df →
      df.find? (fun p => p.patient_id == patient_id) = none →
      layer3_contraindication_detection st patient_id drug dose =
        { passed := true
          message := "Patient not found for contraindication check"
          details := some [] }) ∧
    (layer3_catch (Except.error e)).passed = true := by
  refine ⟨fun h => ?_, fun h hf => ?_, rfl⟩
  · simp [layer3_contraindication_detection, layer3_catch, layer3_body, h]
  · simp [layer3_contraindication_detection, layer3_catch, layer3_body, h, hf]

/-- Witness for C3: a state whose patient store is unavailable, a state
where the patient id misses, and a concrete handler invocation. -/
theorem C3_layer3_fail_open_witness :
    layer3_contraindication_detection
      { prescribers_df := none, patients_df := none
        analysis_count := 0, approved_count := 0 } "P001" "oxycodone" 30 =
      { passed := true
        message := "Cannot check contraindications - patient DB unavailable"
        details := some [] } ∧
    layer3_contraindication_detection
      { prescribers_df := none, patients_df := some []
        analysis_count := 0, approved_count := 0 } "P001" "oxycodone" 30 =
      { passed := true
        message := "Patient not found for contraindication check"
        details := some [] } ∧
    (layer3_catch (Except.error "boom")).passed = true :=
  ⟨(C3_layer3_fail_open _ [] "P001" "oxycodone" 30 "boom").1 rfl,
   (C3_layer3_fail_open _ [] "P001" "oxycodone" 30 "boom").2.1 rfl rfl,
   (C3_layer3_fail_open
     { prescribers_df := none, patients_df := some []
       analysis_count := 0, approved_count := 0 } [] "P001" "oxycodone" 30 "boom").2.2⟩

/-- C4 (counterexample to the claim as stated): for drug `oxycodone` at
dose 75 the dose ceiling (50) is exceeded and Layer 2 fails, but the
failure message does not state the drug: `oxycodone` does not occur in it
(it reads `Dose 75mg exceeds safe limit of 50mg`). -/
theorem C4_message_counterexample :
    (layer2_drug_safety "oxycodone" 75).passed = false ∧
    ¬ ("oxycodone".toList <:+: (layer2_drug_safety "oxycodone" 75).message.toList) := by
  constructor
  · rfl
  · decide

/-- C4 (amended): `layer2_drug_safety` normalizes the drug name
(lowercase, strip); an illegal substance fails for every dose with an
illegal/controlled message; otherwise a drug with a table ceiling and a
dose strictly above it fails with a message stating the dose and the
ceiling (not the drug) while `details` carry drug, dose and ceiling; in
every other case — unknown drugs, doses at or below the ceiling — it
passes. -/
theorem C4_layer2_drug_safety (drug : String) (dose : Rat) :
    (illegal_drugs.contains (pyStrip (pyLower drug)) = true →
      layer2_drug_safety drug dose =
        { passed := false
          message := "Drug \x27" ++ drug ++ "\x27 is illegal/controlled substance"
          details := some [] }) ∧
    (illegal_drugs.contains (pyStrip (pyLower drug)) = false →
      ∀ max_dose : Rat,
        safe_dose_limits.lookup (pyStrip (pyLower drug)) = some max_dose →
        dose > max_dose →
        layer2_drug_safety drug dose =
          { passed := false
            message := "Dose " ++ toString dose ++ "mg exceeds safe limit of "
                       ++ toString max_dose ++ "mg"
            details := some [("drug", .s drug), ("dose", .num dose),
                             ("max_safe_dose", .num max_dose)] }) ∧
    (illegal_drugs.contains (pyStrip (pyLower drug)) = false →
      (∀ max_dose : Rat,
        safe_dose_limits.lookup (pyStrip (pyLower drug)) = some max_dose →
        dose ≤ max_dose) →
      layer2_drug_safety drug dose =
        { passed := true
          message := "Drug \x27" ++ drug ++ "\x27 at " ++ toString dose ++ "mg is safe"
          details := some [("drug", .s drug), ("dose", .num dose),
                           ("status", .s "valid")] }) := by
  refine ⟨fun h => ?_, fun h max_dose hm hgt => ?_, fun h hle => ?_⟩
  · have h2 : pyStrip (pyLower drug) ∈ illegal_drugs := by simpa using h
    simp [layer2_drug_safety, h2]
  · have h2 : pyStrip (pyLower drug) ∉ illegal_drugs := by simpa using h
    simp [layer2_drug_safety, h2, hm, hgt]
  · have h2 : pyStrip (pyLower drug) ∉ illegal_drugs := by simpa using h
    cases hm : safe_dose_limits.lookup (pyStrip (pyLower drug)) with
    | none => simp [layer2_drug_safety, h2, hm]
    | some m =>
      have hle2 := hle m hm
      simp [layer2_drug_safety, h2, hm, not_lt.mpr hle2]

/-- Witness for C4: the three branches exercised at concrete inputs
(`heroin`, over-limit `oxycodone`, under-limit `paracetamol`). -/
theorem C4_layer2_drug_safety_witness :
    layer2_drug_safety "heroin" 5 =
      { passed := false
        message := "Drug \x27heroin\x27 is illegal/controlled substance"
        details := some [] } ∧
    layer2_drug_safety "oxycodone" 75 =
      { passed := false
        message := "Dose 75mg exceeds safe limit of 50mg"
        details := some [("drug", .s "oxycodone"), ("dose", .num 75),
                         ("max_safe_dose", .num 50)] } ∧
    layer2_drug_safety "paracetamol" 500 =
      { passed := true
        message := "Drug \x27paracetamol\x27 at 500mg is safe"
        details := some [("drug", .s "paracetamol"), ("dose", .num 500),
                         ("status", .s "valid")] } :=
  ⟨(C4_layer2_drug_safety "heroin" 5).1 (by decide),
   (C4_layer2_drug_safety "oxycodone" 75).2.1 (by decide) 50 (by decide) (by decide),
   (C4_layer2_drug_safety "paracetamol" 500).2.2 (by decide)
     (fun m hm => by
       have : m = 1000 := by
         have hm2 : some m = some (1000 : Rat) := by rw [← hm]; decide
         exact (Option.some.injEq _ _).mp hm2.symm ▸ rfl
       rw [this]; decide)⟩

/-- C5: for every found patient and every drug normalizing to an opioid
(`oxycodone`, `morphine`, `hydrocodone`, `codeine`): liver status
`severe` or `impaired` fails with reason `opioids_liver_disease`,
severity CRITICAL; otherwise kidney status `severe` fails with reason
`opioids_kidney_disease`, severity CRITICAL.  Both conclusions hold for
every content of the patient's conditions and medications, which shows
the opioid rules are decided before (and independently of) the NSAID,
drug-drug and metformin rules: the first matching rule wins. -/
theorem C5_opioid_contraindications (st : FirewallState) (df : List Patient)
    (p : Patient) (patient_id drug : String) (dose : Rat)
    (hdf : st.patients_df = some df)
    (hp : df.find? (fun q => q.patient_id == patient_id) = some p)
    (hop : opioid_drugs.contains (pyStrip (pyLower drug)) = true) :
    (pyLower (p.liver_status.getD "normal") = "severe" ∨
     pyLower (p.liver_status.getD "normal") = "impaired" →
      layer3_contraindication_detection st patient_id drug dose =
        { passed := false
          message := "CONTRAINDICATION: " ++ drug ++ " contraindicated with "
                     ++ pyLower (p.liver_status.getD "normal") ++ " liver disease"
          details := some [("reason", .s "opioids_liver_disease"),
                           ("severity", .s "CRITICAL")] }) ∧
    (pyLower (p.liver_status.getD "normal") ≠ "severe" →
     pyLower (p.liver_status.getD "normal") ≠ "impaired" →
     pyLower (p.kidney_status.getD "normal") = "severe" →
      layer3_contraindication_detection st patient_id drug dose =
        { passed := false
          message := "CONTRAINDICATION: " ++ drug
                     ++ " contraindicated with severe kidney disease"
          details := some [("reason", .s "opioids_kidney_disease"),
                           ("severity", .s "CRITICAL")] }) := by
  have hop2 : pyStrip (pyLower drug) ∈ opioid_drugs := by simpa using hop
  constructor
  · intro hliv
    rcases hliv with hliv | hliv <;>
      simp [layer3_contraindication_detection, layer3_catch, layer3_body,
            hdf, hp, hop2, hliv]
  · intro hl1 hl2 hkid
    simp [layer3_contraindication_detection, layer3_catch, layer3_body,
          hdf, hp, hop2, hl1, hl2, hkid]

/-- A severe-liver patient (Scenario D of the spec). -/
def liverPatient : Patient :=
  { patient_id := "P7", name := "Dee", age := 60
    conditions := none, medications := none
    liver_status := some "severe", kidney_status := none }

/-- A severe-kidney patient with unremarkable liver status. -/
def kidneyPatient : Patient :=
  { patient_id := "P8", name := "Kay", age := 61
    conditions := none, medications := none
    liver_status := none, kidney_status := some "severe" }

/-- Witness for C5: a severe-liver patient given morphine (Scenario D)
and an impaired-free, severe-kidney patient given codeine. -/
theorem C5_opioid_contraindications_witness :
    layer3_contraindication_detection
      { prescribers_df := none, patients_df := some [liverPatient]
        analysis_count := 0, approved_count := 0 } "P7" "morphine" 20 =
      { passed := false
        message := "CONTRAINDICATION: morphine contraindicated with severe liver disease"
        details := some [("reason", .s "opioids_liver_disease"),
                         ("severity", .s "CRITICAL")] } ∧
    layer3_contraindication_detection
      { prescribers_df := none, patients_df := some [kidneyPatient]
        analysis_count := 0, approved_count := 0 } "P8" "codeine" 20 =
      { passed := false
        message := "CONTRAINDICATION: codeine contraindicated with severe kidney disease"
        details := some [("reason", .s "opioids_kidney_disease"),
                         ("severity", .s "CRITICAL")] } :=
  ⟨(C5_opioid_contraindications
      { prescribers_df := none, patients_df := some [liverPatient]
        analysis_count := 0, approved_count := 0 }
      [liverPatient] liverPatient "P7" "morphine" 20 rfl (by decide)
      (by decide)).1 (Or.inl (by decide)),
   (C5_opioid_contraindications
      { prescribers_df := none, patients_df := some [kidneyPatient]
        analysis_count := 0, approved_count := 0 }
      [kidneyPatient] kidneyPatient "P8" "codeine" 20 rfl (by decide)
      (by decide)).2 (by decide) (by decide) (by decide)⟩

/-- C6 (counterexample to the claim as stated): for a found patient whose
`conditions` cell is the empty string (present, not NA) and whose
`medications` cell is `"Warfarin; ASPIRIN"`, Layer 1 passes but its
details carry the conditions as `[""]` — a one-element list, not the
empty set the claim promises for an empty field — and the medication tags
raw and unnormalized (`"Warfarin"`, `" ASPIRIN"`). -/
theorem C6_details_counterexample :
    (layer1_patient_validation
      { prescribers_df := none
        patients_df := some [{ patient_id := "P9", name := "Pat", age := 40
                               conditions := some ""
                               medications := some "Warfarin; ASPIRIN"
                               liver_status := none, kidney_status := none }]
        analysis_count := 0, approved_count := 0 } "P9") =
      { passed := true
        message := "Patient Pat found"
        details := some [("name", .s "Pat"), ("age", .num 40),
                         ("conditions", .strs [""]),
                         ("medications", .strs ["Warfarin", " ASPIRIN"]),
                         ("liver_status", .s "normal"),
                         ("kidney_status", .s "normal")] } ∧
    DVal.strs [""] ≠ DVal.strs [] ∧
    DVal.strs ["Warfarin", " ASPIRIN"] ≠ DVal.strs ["warfarin", "aspirin"] := by
  refine ⟨by decide, by decide, by decide⟩

/-- C6 (amended): for every patient id present in the loaded data,
`layer1_patient_validation` passes — it fails only when the store is
unloaded or the id is absent, never because of clinical content — and its
details carry the `conditions` and `medications` cells split on `;` into
raw tag lists (no case or whitespace normalization), where an absent (NA)
cell yields the empty list but a present empty-string cell yields the
one-element list containing the empty string; liver and kidney status
default to `"normal"` when the cell is absent. -/
theorem C6_layer1_found_patient (st : FirewallState) (df : List Patient)
    (p : Patient) (patient_id : String)
    (hdf : st.patients_df = some df)
    (hp : df.find? (fun q => q.patient_id == patient_id) = some p) :
    layer1_patient_validation st patient_id =
      { passed := true
        message := "Patient " ++ p.name ++ " found"
        details := some [("name", .s p.name), ("age", .num p.age),
                         ("conditions", .strs (pySplitIfPresent p.conditions)),
                         ("medications", .strs (pySplitIfPresent p.medications)),
                         ("liver_status", .s (p.liver_status.getD "normal")),
                         ("kidney_status", .s (p.kidney_status.getD "normal"))] } ∧
    pySplitIfPresent none = [] ∧
    pySplitIfPresent (some "") = [""] := by
  refine ⟨?_, rfl, rfl⟩
  simp [layer1_patient_validation, hdf, hp]

/-- A patient with an NA conditions cell and a two-entry medications
cell. -/
def leePatient : Patient :=
  { patient_id := "P2", name := "Lee", age := 33
    conditions := none, medications := some "warfarin;aspirin"
    liver_status := some "impaired", kidney_status := none }

/-- Witness for C6: the amended description evaluated on a concrete
patient with an NA conditions cell and a two-entry medications cell. -/
theorem C6_layer1_found_patient_witness :
    layer1_patient_validation
      { prescribers_df := none, patients_df := some [leePatient]
        analysis_count := 0, approved_count := 0 } "P2" =
      { passed := true
        message := "Patient Lee found"
        details := some [("name", .s "Lee"), ("age", .num 33),
                         ("conditions", .strs []),
                         ("medications", .strs ["warfarin", "aspirin"]),
                         ("liver_status", .s "impaired"),
                         ("kidney_status", .s "normal")] } ∧
    pySplitIfPresent none = [] ∧
    pySplitIfPresent (some "") = [""] :=
  C6_layer1_found_patient
    { prescribers_df := none, patients_df := some [leePatient]
      analysis_count := 0, approved_count := 0 }
    [leePatient] leePatient "P2" rfl (by decide)

/-- The post-call state of `analyze_prescription`: the data frames are
untouched, `analysis_count` is bumped by one, and `approved_count` is
bumped exactly when the verdict is approved. -/
theorem analyze_prescription_state (st : FirewallState)
    (prescriber_id patient_id drug : String) (dose : Rat) :
    (analyze_prescription st prescriber_id patient_id drug dose).1 =
      { prescribers_df := st.prescribers_df
        patients_df := st.patients_df
        analysis_count := st.analysis_count + 1
        approved_count := st.approved_count +
          (if (analyze_prescription st prescriber_id patient_id drug dose).2.approved
           then 1 else 0) } := by
  cases h0 : (layer0_doctor_authorization st prescriber_id).passed with
  | false => simp [analyze_prescription, h0]
  | true =>
    cases h1 : (layer1_patient_validation st patient_id).passed with
    | false => simp [analyze_prescription, h0, h1]
    | true =>
      cases h2 : (layer2_drug_safety drug dose).passed with
      | false => simp [analyze_prescription, h0, h1, h2]
      | true =>
        cases h3 : (layer3_contraindication_detection st patient_id drug dose).passed with
        | false => simp [analyze_prescription, h0, h1, h2, h3]
        | true => simp [analyze_prescription, h0, h1, h2, h3]

/-- C7: `analyze_prescription` never evaluates a layer past the first
failure: the verdict's remaining layer results are the synthesized
`skippedResult` placeholders, and a Layer 0 failure yields a verdict that
is literally the same for every content of the patient store (and of the
two counters), so no later layer's reference data can influence it. -/
theorem C7_short_circuit (st : FirewallState)
    (prescriber_id patient_id drug : String) (dose : Rat) :
    (((analyze_prescription st prescriber_id patient_id drug dose).2.layer0.passed = false →
      (analyze_prescription st prescriber_id patient_id drug dose).2.layer1 = skippedResult 0 ∧
      (analyze_prescription st prescriber_id patient_id drug dose).2.layer2 = skippedResult 0 ∧
      (analyze_prescription st prescriber_id patient_id drug dose).2.layer3 = skippedResult 0) ∧
    ((analyze_prescription st prescriber_id patient_id drug dose).2.layer0.passed = true →
      (analyze_prescription st prescriber_id patient_id drug dose).2.layer1.passed = false →
      (analyze_prescription st prescriber_id patient_id drug dose).2.layer2 = skippedResult 1 ∧
      (analyze_prescription st prescriber_id patient_id drug dose).2.layer3 = skippedResult 1) ∧
    ((analyze_prescription st prescriber_id patient_id drug dose).2.layer0.passed = true →
      (analyze_prescription st prescriber_id patient_id drug dose).2.layer1.passed = true →
      (analyze_prescription st prescriber_id patient_id drug dose).2.layer2.passed = false →
      (analyze_prescription st prescriber_id patient_id drug dose).2.layer3 = skippedResult 2)) ∧
    (∀ pats1 pats2 : Option (List Patient), ∀ c1 a1 c2 a2 : Nat,
      (layer0_doctor_authorization
        { prescribers_df := st.prescribers_df, patients_df := pats1
          analysis_count := c1, approved_count := a1 } prescriber_id).passed = false →
      (analyze_prescription
        { prescribers_df := st.prescribers_df, patients_df := pats1
          analysis_count := c1, approved_count := a1 }
        prescriber_id patient_id drug dose).2 =
      (analyze_prescription
        { prescribers_df := st.prescribers_df, patients_df := pats2
          analysis_count := c2, approved_count := a2 }
        prescriber_id patient_id drug dose).2) := by
  constructor
  · cases h0 : (layer0_doctor_authorization st prescriber_id).passed with
    | false =>
      refine ⟨fun _ => ?_, fun hc _ => ?_, fun hc _ _ => ?_⟩
      · simp [analyze_prescription, h0]
      · simp [analyze_prescription, h0] at hc
      · simp [analyze_prescription, h0] at hc
    | true =>
      cases h1 : (layer1_patient_validation st patient_id).passed with
      | false =>
        refine ⟨fun hc => ?_, fun _ _ => ?_, fun _ hc _ => ?_⟩
        · simp [analyze_prescription, h0, h1, skippedResult] at hc
        · simp [analyze_prescription, h0, h1]
        · simp [analyze_prescription, h0, h1] at hc
      | true =>
        cases h2 : (layer2_drug_safety drug dose).passed with
        | false =>
          refine ⟨fun hc => ?_, fun _ hc => ?_, fun _ _ _ => ?_⟩
          · simp [analyze_prescription, h0, h1, h2, skippedResult] at hc
          · simp [analyze_prescription, h0, h1, h2, skippedResult] at hc
          · simp [analyze_prescription, h0, h1, h2]
        | true =>
          cases h3 : (layer3_contraindication_detection st patient_id drug dose).passed with
          | false =>
            refine ⟨fun hc => ?_, fun _ hc => ?_, fun _ _ hc => ?_⟩
            · simp [analyze_prescription, h0, h1, h2, h3, skippedResult] at hc
            · simp [analyze_prescription, h0, h1, h2, h3, skippedResult] at hc
            · simp [analyze_prescription, h0, h1, h2, h3, skippedResult] at hc
          | true =>
            refine ⟨fun hc => ?_, fun _ hc => ?_, fun _ _ hc => ?_⟩
            · simp [analyze_prescription, h0, h1, h2, h3, skippedResult] at hc
            · simp [analyze_prescription, h0, h1, h2, h3, skippedResult] at hc
            · simp [analyze_prescription, h0, h1, h2, h3, skippedResult] at hc
  · intro pats1 pats2 c1 a1 c2 a2 h
    have e0 : layer0_doctor_authorization
        { prescribers_df := st.prescribers_df, patients_df := pats2
          analysis_count := c2, approved_count := a2 } prescriber_id =
      layer0_doctor_authorization
        { prescribers_df := st.prescribers_df, patients_df := pats1
          analysis_count := c1, approved_count := a1 } prescriber_id := rfl
    simp [analyze_prescription, e0, h]

/-- Witness for C7: a state with no prescriber data makes Layer 0 fail;
the verdict carries the three skipped placeholders and is identical
whether the patient store holds `liverPatient` or nothing at all. -/
theorem C7_short_circuit_witness :
    ((analyze_prescription
        { prescribers_df := none, patients_df := some [liverPatient]
          analysis_count := 5, approved_count := 2 } "DOC001" "P7" "morphine" 20).2.layer1 =
      skippedResult 0 ∧
    (analyze_prescription
        { prescribers_df := none, patients_df := some [liverPatient]
          analysis_count := 5, approved_count := 2 } "DOC001" "P7" "morphine" 20).2.layer2 =
      skippedResult 0 ∧
    (analyze_prescription
        { prescribers_df := none, patients_df := some [liverPatient]
          analysis_count := 5, approved_count := 2 } "DOC001" "P7" "morphine" 20).2.layer3 =
      skippedResult 0) ∧
    (analyze_prescription
        { prescribers_df := none, patients_df := some [liverPatient]
          analysis_count := 5, approved_count := 2 } "DOC001" "P7" "morphine" 20).2 =
      (analyze_prescription
        { prescribers_df := none, patients_df := none
          analysis_count := 0, approved_count := 0 } "DOC001" "P7" "morphine" 20).2 :=
  ⟨(C7_short_circuit
      { prescribers_df := none, patients_df := some [liverPatient]
        analysis_count := 5, approved_count := 2 } "DOC001" "P7" "morphine" 20).1.1
      (by decide),
   (C7_short_circuit
      { prescribers_df := none, patients_df := some [liverPatient]
        analysis_count := 5, approved_count := 2 } "DOC001" "P7" "morphine" 20).2
      (some [liverPatient]) none 5 2 0 0 (by decide)⟩

/-- C8: the two process-wide counters do not affect the decision.  Two
states sharing the same reference data but arbitrary counter values yield
literally equal verdicts (in particular equal `approved`, per-layer
`passed` flags and `safety_score`; the wall-clock timestamp is outside
the model), and a second, consecutive call with identical inputs — which
sees the bumped counters — returns the same verdict as the first. -/
theorem C8_counters_do_not_affect_decision
    (ps : Option (List Prescriber)) (pats : Option (List Patient))
    (c1 a1 c2 a2 : Nat) (prescriber_id patient_id drug : String) (dose : Rat) :
    (analyze_prescription
        { prescribers_df := ps, patients_df := pats
          analysis_count := c1, approved_count := a1 }
        prescriber_id patient_id drug dose).2 =
      (analyze_prescription
        { prescribers_df := ps, patients_df := pats
          analysis_count := c2, approved_count := a2 }
        prescriber_id patient_id drug dose).2 ∧
    (analyze_prescription
        (analyze_prescription
          { prescribers_df := ps, patients_df := pats
            analysis_count := c1, approved_count := a1 }
          prescriber_id patient_id drug dose).1
        prescriber_id patient_id drug dose).2 =
      (analyze_prescription
        { prescribers_df := ps, patients_df := pats
          analysis_count := c1, approved_count := a1 }
        prescriber_id patient_id drug dose).2 := by
  have key : ∀ cx ax cy ay : Nat,
      (analyze_prescription
        { prescribers_df := ps, patients_df := pats
          analysis_count := cx, approved_count := ax }
        prescriber_id patient_id drug dose).2 =
      (analyze_prescription
        { prescribers_df := ps, patients_df := pats
          analysis_count := cy, approved_count := ay }
        prescriber_id patient_id drug dose).2 := by
    intro cx ax cy ay
    have e0 : layer0_doctor_authorization
        { prescribers_df := ps, patients_df := pats
          analysis_count := cy, approved_count := ay } prescriber_id =
      layer0_doctor_authorization
        { prescribers_df := ps, patients_df := pats
          analysis_count := cx, approved_count := ax } prescriber_id := rfl
    have e1 : layer1_patient_validation
        { prescribers_df := ps, patients_df := pats
          analysis_count := cy, approved_count := ay } patient_id =
      layer1_patient_validation
        { prescribers_df := ps, patients_df := pats
          analysis_count := cx, approved_count := ax } patient_id := rfl
    have e3 : layer3_contraindication_detection
        { prescribers_df := ps, patients_df := pats
          analysis_count := cy, approved_count := ay } patient_id drug dose =
      layer3_contraindication_detection
        { prescribers_df := ps, patients_df := pats
          analysis_count := cx, approved_count := ax } patient_id drug dose := rfl
    cases h0 : (layer0_doctor_authorization
        { prescribers_df := ps, patients_df := pats
          analysis_count := cx, approved_count := ax } prescriber_id).passed with
    | false => simp [analyze_prescription, e0, h0]
    | true =>
      cases h1 : (layer1_patient_validation
          { prescribers_df := ps, patients_df := pats
            analysis_count := cx, approved_count := ax } patient_id).passed with
      | false => simp [analyze_prescription, e0, e1, h0, h1]
      | true =>
        cases h2 : (layer2_drug_safety drug dose).passed with
        | false => simp [analyze_prescription, e0, e1, h0, h1, h2]
        | true =>
          cases h3 : (layer3_contraindication_detection
              { prescribers_df := ps, patients_df := pats
                analysis_count := cx, approved_count := ax } patient_id drug dose).passed with
          | false => simp [analyze_prescription, e0, e1, e3, h0, h1, h2, h3]
          | true => simp [analyze_prescription, e0, e1, e3, h0, h1, h2, h3]
  refine ⟨key c1 a1 c2 a2, ?_⟩
  rw [analyze_prescription_state]
  exact key _ _ c1 a1

/-- C10: each call to `analyze_prescription` bumps `analysis_count` by
exactly one and `approved_count` by one exactly when the verdict is
approved; hence `approved_count ≤ analysis_count` is preserved, and
`get_statistics` reports `denied_count = analysis_count - approved_count`,
which is then non-negative. -/
theorem C10_counter_invariant (st : FirewallState)
    (prescriber_id patient_id drug : String) (dose : Rat)
    (hinv : st.approved_count ≤ st.analysis_count) :
    (analyze_prescription st prescriber_id patient_id drug dose).1.analysis_count
      = st.analysis_count + 1 ∧
    (analyze_prescription st prescriber_id patient_id drug dose).1.approved_count
      = st.approved_count +
        (if (analyze_prescription st prescriber_id patient_id drug dose).2.approved
         then 1 else 0) ∧
    (analyze_prescription st prescriber_id patient_id drug dose).1.approved_count
      ≤ (analyze_prescription st prescriber_id patient_id drug dose).1.analysis_count ∧
    (get_statistics (analyze_prescription st prescriber_id patient_id drug dose).1).denied_count
      = ((analyze_prescription st prescriber_id patient_id drug dose).1.analysis_count : Int)
        - ((analyze_prescription st prescriber_id patient_id drug dose).1.approved_count : Int) ∧
    0 ≤ (get_statistics
      (analyze_prescription st prescriber_id patient_id drug dose).1).denied_count := by
  rw [analyze_prescription_state st prescriber_id patient_id drug dose]
  cases hA : (analyze_prescription st prescriber_id patient_id drug dose).2.approved <;>
    simp [get_statistics, hA] <;> omega

/-- Witness for C10: the invariant holds at the empty state, and one call
from it leaves `analysis_count = 1` with a non-negative denied count. -/
theorem C10_counter_invariant_witness :
    (0 : Nat) ≤ 0 ∧
    (analyze_prescription
      { prescribers_df := none, patients_df := none
        analysis_count := 0, approved_count := 0 }
      "DOC001" "P001" "aspirin" 100).1.analysis_count = 1 ∧
    0 ≤ (get_statistics
      (analyze_prescription
        { prescribers_df := none, patients_df := none
          analysis_count := 0, approved_count := 0 }
        "DOC001" "P001" "aspirin" 100).1).denied_count :=
  ⟨Nat.le_refl 0,
   (C10_counter_invariant
     { prescribers_df := none, patients_df := none
       analysis_count := 0, approved_count := 0 }
     "DOC001" "P001" "aspirin" 100 (Nat.le_refl 0)).1,
   (C10_counter_invariant
     { prescribers_df := none, patients_df := none
       analysis_count := 0, approved_count := 0 }
     "DOC001" "P001" "aspirin" 100 (Nat.le_refl 0)).2.2.2.2⟩

/-- Appending strings appends their character lists. -/
theorem strToList_append (a b : String) : (a ++ b).toList = a.toList ++ b.toList := rfl

/-- The characters of a member string form an infix of the characters of
the comma-join. -/
theorem toList_mem_infix_commaJoin {tag : String} :
    ∀ {ls : List String}, tag ∈ ls → tag.toList <:+: (commaJoin ls).toList := by
  intro ls
  induction ls with
  | nil => intro h; cases h
  | cons x xs ih =>
    intro h
    cases xs with
    | nil =>
      rcases List.mem_singleton.mp h with rfl
      exact List.infix_refl _
    | cons y ys =>
      rcases List.mem_cons.mp h with rfl | hmem
      · exact ⟨[], (", " ++ commaJoin (y :: ys)).toList, by
          simp [commaJoin, strToList_append]⟩
      · refine (ih hmem).trans ⟨(x ++ ", ").toList, [], by
          simp [commaJoin, strToList_append]⟩

/-- A pattern occurring inside a member string occurs inside the Python
rendering of the whole list. -/
theorem infix_pyReprStrList {pat tag : String} {ls : List String}
    (hmem : tag ∈ ls) (hinf : pat.toList <:+: tag.toList) :
    pat.toList <:+: (pyReprStrList ls).toList := by
  have h1 : pat.toList <:+: (pyReprStr tag).toList := by
    rcases hinf with ⟨s, t, hst⟩
    have hst2 : tag.data = s ++ pat.data ++ t := hst.symm
    exact ⟨"\x27".toList ++ s, t ++ "\x27".toList, by
      simp [pyReprStr, strToList_append, hst2]⟩
  have h2 : (pyReprStr tag).toList <:+: (commaJoin (ls.map pyReprStr)).toList :=
    toList_mem_infix_commaJoin (List.mem_map_of_mem pyReprStr hmem)
  have h3 : (commaJoin (ls.map pyReprStr)).toList <:+: (pyReprStrList ls).toList :=
    ⟨"[".toList, "]".toList, by simp [pyReprStrList, strToList_append]⟩
  exact (h1.trans h2).trans h3

/-- C9: for a found patient and a drug normalizing to `aspirin` or
`ibuprofen`, the NSAID kidney test fires either on exact membership of
the tag `kidney_disease` in the split condition list or on the substring
`ckd` occurring anywhere in the Python string rendering of that list; in
particular any condition tag merely containing `ckd` (such as
`ckd_stage_3`) makes the layer fail with reason `nsaid_kidney_disease`
and severity HIGH. -/
theorem C9_nsaid_ckd_substring (st : FirewallState) (df : List Patient)
    (p : Patient) (patient_id drug : String) (dose : Rat)
    (hdf : st.patients_df = some df)
    (hp : df.find? (fun q => q.patient_id == patient_id) = some p)
    (hn : pyStrip (pyLower drug) = "aspirin" ∨ pyStrip (pyLower drug) = "ibuprofen") :
    ("kidney_disease" ∈ layer3_splitLower p.conditions ∨
     pyInStr "ckd" (pyReprStrList (layer3_splitLower p.conditions)) = true →
      layer3_contraindication_detection st patient_id drug dose =
        { passed := false
          message := "CONTRAINDICATION: NSAIDs contraindicated with kidney disease"
          details := some [("reason", .s "nsaid_kidney_disease"),
                           ("severity", .s "HIGH")] }) ∧
    (∀ tag ∈ layer3_splitLower p.conditions, pyInStr "ckd" tag = true →
      layer3_contraindication_detection st patient_id drug dose =
        { passed := false
          message := "CONTRAINDICATION: NSAIDs contraindicated with kidney disease"
          details := some [("reason", .s "nsaid_kidney_disease"),
                           ("severity", .s "HIGH")] }) := by
  have hnop : pyStrip (pyLower drug) ∉ opioid_drugs := by
    rcases hn with h | h <;> rw [h] <;> decide
  have hmem : pyStrip (pyLower drug) ∈ ["aspirin", "ibuprofen"] := by
    rcases hn with h | h <;> rw [h] <;> decide
  have main : "kidney_disease" ∈ layer3_splitLower p.conditions ∨
      pyInStr "ckd" (pyReprStrList (layer3_splitLower p.conditions)) = true →
      layer3_contraindication_detection st patient_id drug dose =
        { passed := false
          message := "CONTRAINDICATION: NSAIDs contraindicated with kidney disease"
          details := some [("reason", .s "nsaid_kidney_disease"),
                           ("severity", .s "HIGH")] } := by
    intro hck
    rcases hck with hc | hc <;>
      simp [layer3_contraindication_detection, layer3_catch, layer3_body,
            hdf, hp, hnop, hmem, hc]
  refine ⟨main, fun tag htag hck => main (Or.inr ?_)⟩
  have h1 : "ckd".toList <:+: tag.toList := of_decide_eq_true hck
  exact decide_eq_true (infix_pyReprStrList htag h1)

/-- A patient whose only kidney marker is the tag `CKD_stage_3`
(lower-cased to `ckd_stage_3` by Layer 3, which contains `ckd` only as a
proper substring). -/
def ckdPatient : Patient :=
  { patient_id := "P5", name := "Cee", age := 58
    conditions := some "diabetes;CKD_stage_3", medications := none
    liver_status := none, kidney_status := none }

/-- Witness for C9: the `ckd_stage_3` tag alone makes ibuprofen fail the
NSAID rule, although it is not the exact tag `kidney_disease`. -/
theorem C9_nsaid_ckd_substring_witness :
    layer3_contraindication_detection
      { prescribers_df := none, patients_df := some [ckdPatient]
        analysis_count := 0, approved_count := 0 } "P5" "ibuprofen" 400 =
      { passed := false
        message := "CONTRAINDICATION: NSAIDs contraindicated with kidney disease"
        details := some [("reason", .s "nsaid_kidney_disease"),
                         ("severity", .s "HIGH")] } ∧
    "kidney_disease" ∉ layer3_splitLower ckdPatient.conditions :=
  ⟨(C9_nsaid_ckd_substring
      { prescribers_df := none, patients_df := some [ckdPatient]
        analysis_count := 0, approved_count := 0 }
      [ckdPatient] ckdPatient "P5" "ibuprofen" 400 rfl (by decide)
      (Or.inr (by decide))).2 "ckd_stage_3" (by decide) (by decide),
   by decide⟩

end Firewall
